import Mathlib

/-!
Shallow embedding of `src/main.go` of the climbing-tracker service.

The source file holds two near-identical variants of the program,
separated by a document marker:

* variant 1 (lines 1-365): database-backed; `retrieveAndStoreBranchData`
  adds a fixed 10-hour offset to the upstream timestamp before storing;
  `retrieveAndStoreExpectedAttendance` deletes all rows of both tables and
  repopulates `expected_attendance`; `getBranchData` / `getExpectedAttendance`
  scan the tables and group rows by branch.
* variant 2 (lines 366-675): stores occupancy to the database without the
  offset while `getAllBranches` serves the in-memory `App.data` map, which
  is initialised empty by `cleanBranchMap` and never written afterwards.

Modelling conventions:

* `time.Time` is modelled as `Int` (Unix seconds); `10 * time.Hour`
  becomes `10 * 3600` seconds, matching the second-granularity of the
  `"2006-01-02 15:04:05"` format used in the INSERT statements.
* `float64` fields are modelled as `ℚ`.
* JSON values are the inductive `Jsonv`; a `time.Time` field is carried as
  an integral `Jsonv.num` standing for the already-parsed timestamp.
* An upstream HTTP body is either `malformed` (a JSON syntax error, or a
  shape the target type rejects) or a well-formed `Jsonv`.
  `encoding/json` field matching is exact-first, then case-insensitive,
  unknown fields ignored, missing fields left at their zero value, which
  `lookupField`/`decodeField` mirror.  A failed `Decode` leaves the target
  unchanged (the zero `branchData`, or the 16 zero-valued slots created by
  `make([]expectedAttendance, 16)`); a failure at an individual array
  element is conflated with full failure, a case no claim touches.
* The database is a pair of row lists; the surrogate auto-increment `id`
  column is not modelled since nothing observes it (row grouping uses only
  `branch-id`).  Each `db.Query` either succeeds or fails as dictated by
  an explicit environment (`OccEnv`, `AttEnv`), which also supplies the
  per-branch fetch outcomes.
* Go map iteration order is unspecified; the model fixes the order
  `[westend, milton, newstead]`.  No settled claim depends on the order.
* In both `retrieveAndStore...` handlers the statement `r, err := http.Get(...)`
  declares a fresh loop-local `err` that shadows the function-level `err`,
  so the final `if err != nil` check never sees an error from inside the
  loop; the model makes this explicit.
* When `http.Get` returns a network error the response `r` is nil and the
  immediately following `r.Body` dereference panics; gin's Recovery
  middleware turns the panic into a 500 response, but the loop is aborted.
  The model returns `HandlerOutcome.panicked` with the state reached so far.
-/

namespace Climb

/-- Branch name constant (main.go line 131). -/
def westendName : String := "westend"

/-- Branch name constant (main.go line 132). -/
def miltonName : String := "milton"

/-- Branch name constant (main.go line 133). -/
def newsteadName : String := "newstead"

/-- The branch-name → upstream-identifier map returned by `getBranchIds`
(main.go lines 138-144), as an association list in the model's fixed
iteration order. -/
def getBranchIds : List (String × String) :=
  [(westendName, "D969F1B2-0C9F-49A9-B2AC-D7775642F298"),
   (miltonName, "690326F9-98CE-4249-BD91-53A0676A137B"),
   (newsteadName, "A3010228-DFC6-4317-86C0-3839FFDF3FD0")]

/-- The branch-name → storage-id map returned by `getBranchSQLIds`
(main.go lines 146-152). -/
def getBranchSQLIds : List (String × Nat) :=
  [(westendName, 0), (miltonName, 1), (newsteadName, 2)]

/-- The storage-id → branch-name map returned by `getBranchSQLNames`
(main.go lines 154-160). -/
def getBranchSQLNames : List (Nat × String) :=
  [(0, westendName), (1, miltonName), (2, newsteadName)]

/-- Go map indexing `a.getBranchSQLIds()[name]`: a missing key yields the
zero value 0. -/
def branchSQLId (name : String) : Nat :=
  (getBranchSQLIds.lookup name).getD 0

/-- Go map indexing `idMap[branchId]` with `idMap := a.getBranchSQLNames()`:
a missing key yields the zero value `""`. -/
def sqlNameOf (i : Nat) : String :=
  (getBranchSQLNames.lookup i).getD ""

/-- The fixed iteration order the model uses for
`for name, id := range a.getBranchIds()`. -/
def branchNames : List String := [westendName, miltonName, newsteadName]

/-- JSON values, as far as the decoded payloads need them.  A `time.Time`
field is carried as an integral `num` standing for the parsed timestamp. -/
inductive Jsonv where
  | null : Jsonv
  | num : ℚ → Jsonv
  | str : String → Jsonv
  | arr : List Jsonv → Jsonv
  | obj : List (String × Jsonv) → Jsonv

/-- ASCII lower-casing of one character (the JSON keys involved are all
ASCII). -/
def lowerChar (c : Char) : Char :=
  if 65 ≤ c.toNat ∧ c.toNat ≤ 90 then Char.ofNat (c.toNat + 32) else c

/-- ASCII lower-casing of a string. -/
def lowerStr (s : String) : String := ⟨s.data.map lowerChar⟩

/-- `encoding/json` field matching: an exact key match is preferred,
otherwise the first case-insensitive match is used. -/
def lookupField (fields : List (String × Jsonv)) (key : String) : Option Jsonv :=
  match fields.find? (fun kv => kv.1 == key) with
  | some kv => some kv.2
  | none =>
    match fields.find? (fun kv => lowerStr kv.1 == lowerStr key) with
    | some kv => some kv.2
    | none => none

/-- Reading a JSON number into a `float64` field. -/
def asNum : Jsonv → Option ℚ
  | .num q => some q
  | _ => none

/-- Reading a JSON number into an `int` field: the number must be integral. -/
def asInt : Jsonv → Option Int
  | .num q => if q.den = 1 then some q.num else none
  | _ => none

/-- Reading a JSON string into a `string` field. -/
def asStr : Jsonv → Option String
  | .str s => some s
  | _ => none

/-- Decoding one struct field: a missing key or a JSON null leaves the
zero value in place; a present key of the wrong shape is a decode error. -/
def decodeField {α : Type} (fields : List (String × Jsonv)) (key : String)
    (conv : Jsonv → Option α) (dflt : α) : Option α :=
  match lookupField fields key with
  | none => some dflt
  | some .null => some dflt
  | some v => conv v

/-- The `branchData` struct (main.go lines 316-321): field `LastUpdated`
is tagged `json:"LastUpdated"`, `Name` → `"Name"`, `Status` → `"Status"`,
`CurrentPercentage` → `"CurrentPercentage"`. -/
structure branchData where
  LastUpdated : Int
  Name : String
  Status : String
  CurrentPercentage : ℚ
  deriving DecidableEq

/-- The zero value `branchData{}`. -/
def branchDataZero : branchData := ⟨0, "", "", 0⟩

/-- Decoding a JSON value into `branchData` per the struct tags. -/
def decodeBranchData (v : Jsonv) : Option branchData :=
  match v with
  | .obj fields => do
    let lu ← decodeField fields "LastUpdated" asInt 0
    let nm ← decodeField fields "Name" asStr ""
    let st ← decodeField fields "Status" asStr ""
    let cp ← decodeField fields "CurrentPercentage" asNum 0
    pure ⟨lu, nm, st, cp⟩
  | _ => none

/-- The `expectedAttendance` struct of variant 1 (main.go lines 323-326):
`Hour` is tagged `json:"hour"` and `Percentage` is tagged with the
misspelled key `json:"percantage"`.  (Variant 2, lines 632-636, adds a
`Remaining` field but keeps the same two tags.) -/
structure expectedAttendance where
  Hour : Int
  Percentage : ℚ
  deriving DecidableEq

/-- Decoding one JSON value into `expectedAttendance` per the struct tags:
`Hour` from key `"hour"`, `Percentage` from key `"percantage"`. -/
def decodeExpectedAttendance (v : Jsonv) : Option expectedAttendance :=
  match v with
  | .obj fields => do
    let h ← decodeField fields "hour" asInt 0
    let p ← decodeField fields "percantage" asNum 0
    pure ⟨h, p⟩
  | _ => none

/-- Decoding a JSON value into `[]expectedAttendance`. -/
def decodeAttendanceList (v : Jsonv) : Option (List expectedAttendance) :=
  match v with
  | .arr xs => xs.mapM decodeExpectedAttendance
  | _ => none

/-- An upstream HTTP response body: either malformed (Decode fails) or a
well-formed JSON value. -/
inductive UpstreamBody where
  | malformed : UpstreamBody
  | wellFormed : Jsonv → UpstreamBody

/-- Outcome of `http.Get`: a network error (nil response), or a response
carrying a body. -/
inductive FetchResult where
  | networkErr : FetchResult
  | ok : UpstreamBody → FetchResult

/-- The value of `data` after `json.NewDecoder(r.Body).Decode(&data)` with
`data := branchData{}`: a failed decode leaves the zero value. -/
def decodedBranchData (body : UpstreamBody) : branchData :=
  match body with
  | .malformed => branchDataZero
  | .wellFormed v => (decodeBranchData v).getD branchDataZero

/-- Whether the occupancy decode succeeded for this body. -/
def branchDecodeOk (body : UpstreamBody) : Bool :=
  match body with
  | .malformed => false
  | .wellFormed v => (decodeBranchData v).isSome

/-- The 16 zero-valued slots created by `make([]expectedAttendance, 16)`. -/
def zeroSlots : List expectedAttendance := List.replicate 16 ⟨0, 0⟩

/-- The value of `data` after `Decode(&data)` with
`data := make([]expectedAttendance, 16)`: a successful decode replaces the
slice with exactly the decoded elements, a failed decode leaves the 16
zero-valued slots. -/
def decodedAttendance (body : UpstreamBody) : List expectedAttendance :=
  match body with
  | .malformed => zeroSlots
  | .wellFormed v => (decodeAttendanceList v).getD zeroSlots

/-- A row of `branch-data.branch_data` (the surrogate id column is not
modelled). -/
structure BranchRow where
  branchId : Nat
  lastUpdated : Int
  name : String
  status : String
  currentPercentage : ℚ
  deriving DecidableEq

/-- A row of `branch-data.expected_attendance` (the surrogate id column is
not modelled). -/
structure AttendanceRow where
  branchId : Nat
  hour : Int
  percentage : ℚ
  deriving DecidableEq

/-- The database state: the two tables, as insertion-ordered row lists. -/
structure DB where
  branch_data : List BranchRow
  expected_attendance : List AttendanceRow
  deriving DecidableEq

/-- The empty database. -/
def DB.empty : DB := ⟨[], []⟩

/-- Environment for one run of `retrieveAndStoreBranchData`: the upstream
fetch outcome per branch, and whether the INSERT query succeeds per branch. -/
structure OccEnv where
  fetch : String → FetchResult
  insertOk : String → Bool

/-- Environment for one run of `retrieveAndStoreExpectedAttendance`:
whether each of the two DELETE queries succeeds, the fetch outcome per
branch, and whether the i-th INSERT for a branch succeeds. -/
structure AttEnv where
  deleteAttendanceOk : Bool
  deleteBranchOk : Bool
  fetch : String → FetchResult
  insertOk : String → Nat → Bool

/-- Outcome of one handler run: a panic (recovered by gin, aborting the
loop) with the state reached so far, or a completed run writing an HTTP
status and body. -/
inductive HandlerOutcome where
  | panicked : DB → HandlerOutcome
  | response : DB → Nat → String → HandlerOutcome
  deriving DecidableEq

/-- The database state an outcome leaves behind. -/
def HandlerOutcome.db : HandlerOutcome → DB
  | .panicked d => d
  | .response d _ _ => d

/-- The HTTP status an outcome writes, if the handler completed. -/
def HandlerOutcome.status : HandlerOutcome → Option Nat
  | .panicked _ => none
  | .response _ s _ => some s

/-- One iteration of the loop of `retrieveAndStoreBranchData` (variant 1,
main.go lines 172-192) for one branch: on a network error the nil `r` is
dereferenced at `r.Body` and the handler panics (`none`); otherwise the
body is decoded (a failure silently leaving the zero value), the row built
with the 10-hour offset on the timestamp, and the INSERT either appends
the row or fails with only a log line. -/
def occStep (env : OccEnv) (db : DB) (name : String) : Option DB :=
  match env.fetch name with
  | .networkErr => none
  | .ok body =>
    let data := decodedBranchData body
    let row : BranchRow :=
      ⟨branchSQLId name, data.LastUpdated + 10 * 3600, data.Name,
       data.Status, data.CurrentPercentage⟩
    if env.insertOk name then
      some { db with branch_data := db.branch_data ++ [row] }
    else
      some db

/-- The branch loop of `retrieveAndStoreBranchData`: `Except.error`
carries the state at the panic. -/
def occLoop (env : OccEnv) : List String → DB → Except DB DB
  | [], db => .ok db
  | n :: rest, db =>
    match occStep env db n with
    | none => .error db
    | some db2 => occLoop env rest db2

/-- The handler `retrieveAndStoreBranchData` (variant 1, main.go lines
170-198).  The loop-local `r, err := http.Get(...)` shadows the
function-level `err`, which is never assigned, so on completion the final
`if err != nil` always sees nil and the handler always answers
200 "Store Succeeded". -/
def retrieveAndStoreBranchData (env : OccEnv) (db : DB) : HandlerOutcome :=
  match occLoop env branchNames db with
  | .error db2 => .panicked db2
  | .ok db2 =>
    let outerErr : Option String := none
    match outerErr with
    | some e => .response db2 500 e
    | none => .response db2 200 "Store Succeeded"

/-- Ghost observer (not computed by the code): whether the occupancy cycle
ran with no fetch, decode, or persistence error for any branch. -/
def occCycleErrorFree (env : OccEnv) : Bool :=
  branchNames.all fun n =>
    match env.fetch n with
    | .networkErr => false
    | .ok body => branchDecodeOk body && env.insertOk n

/-- The per-slot INSERT loop of `retrieveAndStoreExpectedAttendance`
(main.go lines 226-235), carrying the slot index for the environment's
per-row success flag; a failed INSERT is only logged. -/
def insertSlots (env : AttEnv) (name : String) :
    Nat → List expectedAttendance → DB → DB
  | _, [], db => db
  | i, s :: rest, db =>
    let db2 :=
      if env.insertOk name i then
        { db with expected_attendance :=
            db.expected_attendance ++ [⟨branchSQLId name, s.Hour, s.Percentage⟩] }
      else db
    insertSlots env name (i + 1) rest db2

/-- One iteration of the branch loop of `retrieveAndStoreExpectedAttendance`
(main.go lines 216-236): the same nil-dereference panic on a network
error; otherwise the body is decoded (failure leaving the 16 zero-valued
slots) and each slot inserted. -/
def attStep (env : AttEnv) (db : DB) (name : String) : Option DB :=
  match env.fetch name with
  | .networkErr => none
  | .ok body =>
    some (insertSlots env name 0 (decodedAttendance body) db)

/-- The branch loop of `retrieveAndStoreExpectedAttendance`. -/
def attLoop (env : AttEnv) : List String → DB → Except DB DB
  | [], db => .ok db
  | n :: rest, db =>
    match attStep env db n with
    | none => .error db
    | some db2 => attLoop env rest db2

/-- The database state after the two DELETE statements opening
`retrieveAndStoreExpectedAttendance` (main.go lines 203-213):
`DELETE FROM expected_attendance` clears that table when it succeeds,
then `DELETE FROM branch_data` clears that table when it succeeds; a
failed DELETE leaves its table untouched (the error is only logged). -/
def attInitial (env : AttEnv) (db : DB) : DB :=
  let db1 := if env.deleteAttendanceOk then { db with expected_attendance := [] } else db
  if env.deleteBranchOk then { db1 with branch_data := [] } else db1

/-- The handler `retrieveAndStoreExpectedAttendance` (variant 1, main.go
lines 201-243).  It first runs the two DELETE statements, assigning the
function-level `err` both times, so after the loop (whose `err` is
shadowed by `r, err := http.Get(...)`) the final `if err != nil` check
sees exactly the second DELETE's error: the handler answers 500 precisely
when the `branch_data` DELETE failed, and 200 "Store Succeeded"
otherwise, whatever happened inside the loop. -/
def retrieveAndStoreExpectedAttendance (env : AttEnv) (db : DB) : HandlerOutcome :=
  match attLoop env branchNames (attInitial env db) with
  | .error db3 => .panicked db3
  | .ok db3 =>
    if env.deleteBranchOk then .response db3 200 "Store Succeeded"
    else .response db3 500 "delete branch_data failed"

/-- The branch name a `branch_data` row is grouped under:
`idMap[branchId]`, the zero value `""` when the id is unknown. -/
def branchRowKey (r : BranchRow) : String := sqlNameOf r.branchId

/-- The `branchData` record rebuilt from a scanned `branch_data` row
(main.go lines 258-267). -/
def branchRowData (r : BranchRow) : branchData :=
  ⟨r.lastUpdated, r.name, r.status, r.currentPercentage⟩

/-- One scan iteration of `getBranchData`: append the row's record to the
list under its branch key. -/
def branchScanStep (acc : String → List branchData) (r : BranchRow) :
    String → List branchData :=
  fun k => if k = branchRowKey r then acc k ++ [branchRowData r] else acc k

/-- The handler `getBranchData` (variant 1, main.go lines 245-269) as the
per-key content of the map it serialises: a full scan of `branch_data`
grouping rows by `idMap[branchId]`.  The Go map is initialised with the
three branch keys mapped to empty slices; observationally a lookup of any
other key also yields the empty list, which the function model gives
directly. -/
def getBranchData (db : DB) : String → List branchData :=
  db.branch_data.foldl branchScanStep (fun _ => [])

/-- The branch name an `expected_attendance` row is grouped under. -/
def attRowKey (r : AttendanceRow) : String := sqlNameOf r.branchId

/-- The `expectedAttendance` record rebuilt from a scanned
`expected_attendance` row (main.go lines 284-292). -/
def attRowSlot (r : AttendanceRow) : expectedAttendance :=
  ⟨r.hour, r.percentage⟩

/-- One scan iteration of `getExpectedAttendance`. -/
def attScanStep (acc : String → List expectedAttendance) (r : AttendanceRow) :
    String → List expectedAttendance :=
  fun k => if k = attRowKey r then acc k ++ [attRowSlot r] else acc k

/-- The handler `getExpectedAttendance` (variant 1, main.go lines 271-295)
as the per-key content of the map it serialises. -/
def getExpectedAttendance (db : DB) : String → List expectedAttendance :=
  db.expected_attendance.foldl attScanStep (fun _ => [])

/-! ### Variant 2: the in-memory occupancy map

Variant 2's `App` (main.go lines 407-414) additionally holds
`data map[string][]branchData`.  Its `retrieveAndStoreBranchData`
(lines 551-581) runs the same loop as variant 1 but without the 10-hour
offset and writes only to the database; `App.data` is initialised by
`cleanBranchMap` (lines 535-541) and never written afterwards, and
`getAllBranches` (lines 602-604) serialises it directly. -/

/-- Variant 2 application state: the database plus the in-memory
per-branch occupancy map. -/
structure AppV2 where
  db : DB
  data : String → List branchData

/-- `cleanBranchMap` (main.go lines 535-541): the three branch keys each
mapped to an empty slice; observationally every key maps to the empty
list. -/
def cleanBranchMap : String → List branchData := fun _ => []

/-- A freshly initialised variant-2 application over a given database. -/
def AppV2.init (db : DB) : AppV2 := ⟨db, cleanBranchMap⟩

/-- Outcome of a variant-2 handler run (the response body text, which
echoes the SQL statements on success, is not observed by any claim and is
elided). -/
inductive OutcomeV2 where
  | panicked : AppV2 → OutcomeV2
  | response : AppV2 → Nat → OutcomeV2

/-- The application state a variant-2 outcome leaves behind. -/
def OutcomeV2.app : OutcomeV2 → AppV2
  | .panicked a => a
  | .response a _ => a

/-- The HTTP status a variant-2 outcome writes, if the handler completed. -/
def OutcomeV2.status : OutcomeV2 → Option Nat
  | .panicked _ => none
  | .response _ s => some s

/-- One iteration of the loop of variant 2's `retrieveAndStoreBranchData`
(main.go lines 554-574): as in variant 1 but the timestamp is stored
without the 10-hour offset, and only `app.db` is written — `app.data` is
untouched. -/
def occStepV2 (env : OccEnv) (app : AppV2) (name : String) : Option AppV2 :=
  match env.fetch name with
  | .networkErr => none
  | .ok body =>
    let data := decodedBranchData body
    let row : BranchRow :=
      ⟨branchSQLId name, data.LastUpdated, data.Name, data.Status, data.CurrentPercentage⟩
    if env.insertOk name then
      some { app with db := { app.db with branch_data := app.db.branch_data ++ [row] } }
    else
      some app

/-- The branch loop of variant 2's `retrieveAndStoreBranchData`. -/
def occLoopV2 (env : OccEnv) : List String → AppV2 → Except AppV2 AppV2
  | [], app => .ok app
  | n :: rest, app =>
    match occStepV2 env app n with
    | none => .error app
    | some app2 => occLoopV2 env rest app2

/-- The handler `retrieveAndStoreBranchData` of variant 2 (main.go lines
551-581), with the same shadowed-`err` completion path as variant 1: a
completed run always answers 200. -/
def retrieveAndStoreBranchDataV2 (env : OccEnv) (app : AppV2) : OutcomeV2 :=
  match occLoopV2 env branchNames app with
  | .error app2 => .panicked app2
  | .ok app2 => .response app2 200

/-- The handler `getAllBranches` of variant 2 (main.go lines 602-604): it
serialises the in-memory `App.data` map directly. -/
def getAllBranches (app : AppV2) : String → List branchData := app.data

/-! ### Derived values and concrete environments used by the claims -/

/-- The rows the attendance INSERT loop produces for one branch from a
decoded slot list. -/
def attRowsOf (name : String) (slots : List expectedAttendance) : List AttendanceRow :=
  slots.map fun s => ⟨branchSQLId name, s.Hour, s.Percentage⟩

/-- The `branch_data` row inserted for a branch whose body failed to
decode: the zero-valued reading, with the 10-hour offset applied to the
zero timestamp. -/
def zeroOccRow (name : String) : BranchRow :=
  ⟨branchSQLId name, branchDataZero.LastUpdated + 10 * 3600, branchDataZero.Name,
   branchDataZero.Status, branchDataZero.CurrentPercentage⟩

/-- A well-formed occupancy body with the given timestamp and name,
`Status="Quiet"` and `CurrentPercentage=42.5`. -/
def occBodyOf (t : Int) (nm : String) : Jsonv :=
  .obj [("LastUpdated", .num t), ("Name", .str nm),
        ("Status", .str "Quiet"), ("CurrentPercentage", .num (85 / 2))]

/-- An attendance slot object with the correctly misspelled
`"percantage"` key the struct tag expects. -/
def slotJson (h : Int) (p : ℚ) : Jsonv :=
  .obj [("hour", .num h), ("percantage", .num p)]

/-- A 16-slot sample payload: hours 0..15, percentages `base + hour`
(computed over `Nat` so that concrete evaluation stays kernel-reducible). -/
def sampleSlots (base : Nat) : List expectedAttendance :=
  (List.range 16).map fun (i : Nat) => ⟨(i : Int), ((base + i : Nat) : ℚ)⟩

/-- The JSON body decoding to `sampleSlots base`. -/
def sampleBody (base : Nat) : Jsonv :=
  .arr ((List.range 16).map fun (i : Nat) => slotJson (i : Int) ((base + i : Nat) : ℚ))

/-- Occupancy environment where every fetch succeeds and decodes (an
empty JSON object leaves the zero value in every field) but the INSERT
for branch westend fails. -/
def envC1 : OccEnv :=
  ⟨fun _ => .ok (.wellFormed (.obj [])), fun n => n != westendName⟩

/-- Attendance environment where the `expected_attendance` DELETE fails
while everything else succeeds (each upstream body is an empty JSON
array). -/
def envC1b : AttEnv :=
  ⟨false, true, fun _ => .ok (.wellFormed (.arr [])), fun _ _ => true⟩

/-- Occupancy environment where the fetch for westend fails with a
network error and every other branch is healthy. -/
def envC2 : OccEnv :=
  ⟨fun n => if n == westendName then .networkErr else .ok (.wellFormed (.obj [])),
   fun _ => true⟩

/-- Occupancy environment where westend's response body is malformed
JSON and everything else succeeds. -/
def envC4 : OccEnv :=
  ⟨fun n => if n == westendName then .ok .malformed else .ok (.wellFormed (.obj [])),
   fun _ => true⟩

/-- Attendance environment where westend's response body is malformed
JSON and everything else succeeds. -/
def envC4a : AttEnv :=
  ⟨true, true,
   fun n => if n == westendName then .ok .malformed else .ok (.wellFormed (.arr [])),
   fun _ _ => true⟩

/-- A database holding one previously stored occupancy reading. -/
def dbC3 : DB := ⟨[⟨0, 500, "West End", "Quiet", 42⟩], []⟩

/-- Attendance environment where every query succeeds and every upstream
body is an empty JSON array. -/
def envC3 : AttEnv :=
  ⟨true, true, fun _ => .ok (.wellFormed (.arr [])), fun _ _ => true⟩

/-- Attendance environment where each branch's fetch yields a distinct
valid 16-slot payload and every query succeeds. -/
def envC5 : AttEnv :=
  ⟨true, true,
   fun n =>
     if n == westendName then .ok (.wellFormed (sampleBody 1))
     else if n == miltonName then .ok (.wellFormed (sampleBody 2))
     else .ok (.wellFormed (sampleBody 3)),
   fun _ _ => true⟩

/-- A second all-healthy attendance environment with different payloads,
for the replace-all-twice claim. -/
def envC7 : AttEnv :=
  ⟨true, true,
   fun n =>
     if n == westendName then .ok (.wellFormed (sampleBody 21))
     else if n == miltonName then .ok (.wellFormed (sampleBody 22))
     else .ok (.wellFormed (sampleBody 23)),
   fun _ _ => true⟩

/-- The mocked westend occupancy body of the query-surface claim. -/
def bodyC9 : Jsonv := occBodyOf 1000 "West End"

/-- Occupancy environment where every fetch returns `bodyC9` and every
INSERT succeeds. -/
def envC9 : OccEnv := ⟨fun _ => .ok (.wellFormed bodyC9), fun _ => true⟩

/-- The database state carried by either side of a loop result. -/
def exceptDB : Except DB DB → DB
  | .error d => d
  | .ok d => d

/-! ### Helper lemmas -/

/-- The attendance INSERT loop never touches the `branch_data` table. -/
theorem insertSlots_branch_data (env : AttEnv) (name : String)
    (slots : List expectedAttendance) :
    ∀ (i : Nat) (db : DB),
      (insertSlots env name i slots db).branch_data = db.branch_data := by
  induction slots with
  | nil => intro i db; rfl
  | cons s rest ih =>
    intro i db
    rw [insertSlots, ih (i + 1)]
    cases h : env.insertOk name i <;> simp [h]

/-- When every INSERT for the branch succeeds, the attendance INSERT loop
appends exactly the rows of the decoded slots, in order. -/
theorem insertSlots_allOk (env : AttEnv) (name : String)
    (hins : ∀ i, env.insertOk name i = true)
    (slots : List expectedAttendance) :
    ∀ (i : Nat) (db : DB),
      insertSlots env name i slots db
        = { db with expected_attendance := db.expected_attendance ++ attRowsOf name slots } := by
  induction slots with
  | nil => intro i db; simp [insertSlots, attRowsOf]
  | cons s rest ih =>
    intro i db
    rw [insertSlots, ih (i + 1)]
    simp [hins i, attRowsOf]

/-- An attendance loop iteration with a successful fetch for a fully
decoding body appends exactly the decoded rows (all INSERTs succeeding). -/
theorem attStep_decoded (env : AttEnv) (db : DB) (name : String)
    (v : Jsonv) (xs : List expectedAttendance)
    (hf : env.fetch name = .ok (.wellFormed v))
    (hd : decodeAttendanceList v = some xs)
    (hins : ∀ i, env.insertOk name i = true) :
    attStep env db name
      = some { db with expected_attendance := db.expected_attendance ++ attRowsOf name xs } := by
  simp only [attStep, hf, decodedAttendance, hd, Option.getD_some]
  rw [insertSlots_allOk env name hins]

/-- A completed or aborted attendance loop leaves `branch_data` as it
found it: only the DELETE statements touch that table. -/
theorem attLoop_branch_data (env : AttEnv) :
    ∀ (names : List String) (db : DB),
      (exceptDB (attLoop env names db)).branch_data = db.branch_data := by
  intro names
  induction names with
  | nil => intro db; rfl
  | cons n rest ih =>
    intro db
    rw [attLoop]
    cases hstep : attStep env db n with
    | none => rfl
    | some db2 =>
      have h2 : db2.branch_data = db.branch_data := by
        cases hf : env.fetch n with
        | networkErr => rw [attStep, hf] at hstep; cases hstep
        | ok body =>
          rw [attStep, hf] at hstep
          cases hstep
          exact insertSlots_branch_data env n _ 0 db
      rw [ih db2, h2]

/-- Grouping lemma for the `expected_attendance` scan: the per-key result
of the fold is the accumulator's entry followed by the rows keyed there,
in table order. -/
theorem attScan_foldl (rows : List AttendanceRow)
    (acc : String → List expectedAttendance) (k : String) :
    rows.foldl attScanStep acc k
      = acc k ++ (rows.filter fun r => attRowKey r == k).map attRowSlot := by
  induction rows generalizing acc with
  | nil => simp
  | cons r rest ih =>
    rw [List.foldl_cons, ih]
    by_cases h : attRowKey r = k
    · simp [attScanStep, List.filter_cons, h]
    · simp [attScanStep, List.filter_cons, h, Ne.symm h]

/-- The attendance query surface returns, for each key, exactly the rows
keyed there, in table order. -/
theorem getExpectedAttendance_eq (db : DB) (k : String) :
    getExpectedAttendance db k
      = (db.expected_attendance.filter fun r => attRowKey r == k).map attRowSlot := by
  simpa using attScan_foldl db.expected_attendance (fun _ => []) k

/-- Grouping lemma for the `branch_data` scan. -/
theorem branchScan_foldl (rows : List BranchRow)
    (acc : String → List branchData) (k : String) :
    rows.foldl branchScanStep acc k
      = acc k ++ (rows.filter fun r => branchRowKey r == k).map branchRowData := by
  induction rows generalizing acc with
  | nil => simp
  | cons r rest ih =>
    rw [List.foldl_cons, ih]
    by_cases h : branchRowKey r = k
    · simp [branchScanStep, List.filter_cons, h]
    · simp [branchScanStep, List.filter_cons, h, Ne.symm h]

/-- The occupancy query surface returns, for each key, exactly the rows
keyed there, in table order. -/
theorem getBranchData_eq (db : DB) (k : String) :
    getBranchData db k
      = (db.branch_data.filter fun r => branchRowKey r == k).map branchRowData := by
  simpa using branchScan_foldl db.branch_data (fun _ => []) k

/-- Every row a branch's INSERT loop produces is keyed back to the name
the registry's reverse map gives for that branch's storage id. -/
theorem filter_attRowsOf (name k : String) (slots : List expectedAttendance) :
    ((attRowsOf name slots).filter fun r => attRowKey r == k)
      = if sqlNameOf (branchSQLId name) = k then attRowsOf name slots else [] := by
  induction slots with
  | nil => simp [attRowsOf]
  | cons s rest ih =>
    by_cases h : sqlNameOf (branchSQLId name) = k <;>
      simp [attRowsOf, List.filter_cons, attRowKey, h, ih]

/-- Converting a branch's inserted rows back to slots recovers the
decoded slots exactly. -/
theorem attRowsOf_map_slot (name : String) (slots : List expectedAttendance) :
    (attRowsOf name slots).map attRowSlot = slots := by
  induction slots with
  | nil => rfl
  | cons s rest ih => simp [attRowsOf, attRowSlot] at ih ⊢; exact ih

/-- The registry round trip at westend. -/
theorem sqlNameOf_west : sqlNameOf (branchSQLId westendName) = westendName := by decide

/-- The registry round trip at milton. -/
theorem sqlNameOf_milton : sqlNameOf (branchSQLId miltonName) = miltonName := by decide

/-- The registry round trip at newstead. -/
theorem sqlNameOf_newstead : sqlNameOf (branchSQLId newsteadName) = newsteadName := by decide

/-- The three branch names are pairwise distinct. -/
theorem branchNames_distinct :
    westendName ≠ miltonName ∧ westendName ≠ newsteadName ∧ miltonName ≠ newsteadName := by
  decide

/-- The per-key content of the attendance query surface over the table a
fully successful ingestion cycle produces. -/
theorem getAtt_of_rows (w m n : List expectedAttendance) (k : String) :
    getExpectedAttendance
        ⟨[], attRowsOf westendName w ++ (attRowsOf miltonName m ++ attRowsOf newsteadName n)⟩ k
      = (if westendName = k then w else [])
        ++ (if miltonName = k then m else [])
        ++ (if newsteadName = k then n else []) := by
  rw [getExpectedAttendance_eq]
  simp only [List.filter_append, List.map_append, filter_attRowsOf,
    sqlNameOf_west, sqlNameOf_milton, sqlNameOf_newstead]
  by_cases h1 : westendName = k <;> by_cases h2 : miltonName = k <;>
    by_cases h3 : newsteadName = k <;>
      simp [h1, h2, h3, attRowsOf_map_slot]

/-- Unfolding the attendance branch loop over the three branches when
every fetch succeeds, every body decodes, and every INSERT succeeds. -/
theorem attLoop_allOk (env : AttEnv)
    (hins : ∀ name i, env.insertOk name i = true)
    (vw vm vn : Jsonv) (w m n : List expectedAttendance)
    (hfw : env.fetch westendName = .ok (.wellFormed vw))
    (hdw : decodeAttendanceList vw = some w)
    (hfm : env.fetch miltonName = .ok (.wellFormed vm))
    (hdm : decodeAttendanceList vm = some m)
    (hfn : env.fetch newsteadName = .ok (.wellFormed vn))
    (hdn : decodeAttendanceList vn = some n) :
    attLoop env branchNames ⟨[], []⟩
      = .ok ⟨[], attRowsOf westendName w ++ attRowsOf miltonName m ++ attRowsOf newsteadName n⟩ := by
  have h1 : attStep env ⟨[], []⟩ westendName = some ⟨[], attRowsOf westendName w⟩ := by
    simpa using attStep_decoded env ⟨[], []⟩ westendName vw w hfw hdw (hins _)
  have h2 : attStep env ⟨[], attRowsOf westendName w⟩ miltonName
      = some ⟨[], attRowsOf westendName w ++ attRowsOf miltonName m⟩ := by
    simpa using attStep_decoded env ⟨[], attRowsOf westendName w⟩ miltonName vm m hfm hdm (hins _)
  have h3 : attStep env ⟨[], attRowsOf westendName w ++ attRowsOf miltonName m⟩ newsteadName
      = some ⟨[], attRowsOf westendName w ++ attRowsOf miltonName m ++ attRowsOf newsteadName n⟩ := by
    simpa using attStep_decoded env ⟨[], attRowsOf westendName w ++ attRowsOf miltonName m⟩
      newsteadName vn n hfn hdn (hins _)
  simp only [branchNames, attLoop, h1, h2, h3]

/-- A fully successful attendance ingestion cycle ends in a 200 response
whose database holds exactly the three branches' decoded rows and nothing
else, regardless of the prior database state. -/
theorem attCycle_allOk (env : AttEnv) (db : DB)
    (hda : env.deleteAttendanceOk = true) (hdb : env.deleteBranchOk = true)
    (hins : ∀ name i, env.insertOk name i = true)
    (vw vm vn : Jsonv) (w m n : List expectedAttendance)
    (hfw : env.fetch westendName = .ok (.wellFormed vw))
    (hdw : decodeAttendanceList vw = some w)
    (hfm : env.fetch miltonName = .ok (.wellFormed vm))
    (hdm : decodeAttendanceList vm = some m)
    (hfn : env.fetch newsteadName = .ok (.wellFormed vn))
    (hdn : decodeAttendanceList vn = some n) :
    retrieveAndStoreExpectedAttendance env db
      = .response
          ⟨[], attRowsOf westendName w ++ attRowsOf miltonName m ++ attRowsOf newsteadName n⟩
          200 "Store Succeeded" := by
  have hinit : attInitial env db = ⟨[], []⟩ := by
    simp [attInitial, hda, hdb]
  rw [retrieveAndStoreExpectedAttendance, hinit,
    attLoop_allOk env hins vw vm vn w m n hfw hdw hfm hdm hfn hdn]
  simp [hdb]

/-- The database an attendance-handler outcome carries is the loop result
over the post-DELETE state. -/
theorem att_outcome_db (env : AttEnv) (db : DB) :
    (retrieveAndStoreExpectedAttendance env db).db
      = exceptDB (attLoop env branchNames (attInitial env db)) := by
  rw [retrieveAndStoreExpectedAttendance]
  cases attLoop env branchNames (attInitial env db) with
  | error d => rfl
  | ok d => cases h : env.deleteBranchOk <;> simp [h, HandlerOutcome.db, exceptDB]

/-- When no branch's fetch returns a network error, the occupancy loop
completes without panicking. -/
theorem occLoop_no_networkErr (env : OccEnv) :
    ∀ (names : List String), (∀ n ∈ names, env.fetch n ≠ .networkErr) →
      ∀ db, ∃ db2, occLoop env names db = .ok db2 := by
  intro names
  induction names with
  | nil => exact fun _ db => ⟨db, rfl⟩
  | cons nm rest ih =>
    intro h db
    rw [occLoop]
    cases hf : env.fetch nm with
    | networkErr => exact absurd hf (h nm (by simp))
    | ok body =>
      have hrest : ∀ n ∈ rest, env.fetch n ≠ .networkErr := fun n hn => h n (by simp [hn])
      simp only [occStep, hf]
      cases hi : env.insertOk nm <;> simp [hi] <;> exact ih hrest _

/-- Pairwise distinctness facts about the branch names. -/
theorem west_ne_milton : westendName ≠ miltonName := by decide

/-- See `west_ne_milton`. -/
theorem west_ne_newstead : westendName ≠ newsteadName := by decide

/-- See `west_ne_milton`. -/
theorem milton_ne_west : miltonName ≠ westendName := by decide

/-- See `west_ne_milton`. -/
theorem milton_ne_newstead : miltonName ≠ newsteadName := by decide

/-- See `west_ne_milton`. -/
theorem newstead_ne_west : newsteadName ≠ westendName := by decide

/-- See `west_ne_milton`. -/
theorem newstead_ne_milton : newsteadName ≠ miltonName := by decide

/-! ### Claims -/

/-- C1: the claim says the store endpoints answer 200 exactly when the
cycle's aggregate error list is empty and 500 otherwise.  The code does
not do this: in `retrieveAndStoreBranchData` the loop-local
`r, err := http.Get(...)` shadows the function-level `err`, which is never
assigned, so a completed occupancy cycle always answers 200 even when an
INSERT failed; and `retrieveAndStoreExpectedAttendance` answers 500 only
when its second DELETE (`branch_data`) fails, so a failed
`expected_attendance` DELETE still yields 200.  This theorem evaluates
both handlers at such failing inputs. -/
theorem store_handlers_report_200_despite_errors :
    ((retrieveAndStoreBranchData envC1 DB.empty).status = some 200
      ∧ occCycleErrorFree envC1 = false)
    ∧ ((retrieveAndStoreExpectedAttendance envC1b DB.empty).status = some 200
      ∧ envC1b.deleteAttendanceOk = false) := by
  decide

/-- C2 counterexample: with a network error for westend (and healthy
upstream for the other branches) the occupancy cycle does not log and
continue with a zero-valued reading — it panics on the nil response body
before processing any branch, leaving the store untouched. -/
theorem occupancy_cycle_panics_on_network_error :
    retrieveAndStoreBranchData envC2 DB.empty = .panicked DB.empty := by
  decide

/-- C2 (amended): on a decode failure the ingestion step silently
proceeds with a zero-valued reading (the decode error is discarded, not
logged); but on a network fetch error the step dereferences the nil
response and panics, and when the first branch's fetch fails the whole
cycle aborts with nothing processed. -/
theorem occStep_failure_semantics (env : OccEnv) (db : DB) (name : String) :
    (env.fetch name = .networkErr → occStep env db name = none)
    ∧ (env.fetch name = .ok .malformed → env.insertOk name = true →
        occStep env db name
          = some { db with branch_data := db.branch_data ++ [zeroOccRow name] })
    ∧ (env.fetch westendName = .networkErr →
        retrieveAndStoreBranchData env db = .panicked db) := by
  refine ⟨?_, ?_, ?_⟩
  · intro h
    simp [occStep, h]
  · intro h hi
    simp [occStep, h, decodedBranchData, hi, zeroOccRow]
  · intro h
    rw [retrieveAndStoreBranchData]
    simp only [branchNames, occLoop, occStep, h]

/-- C2 witness: the amended statement applied at the concrete failing
environments. -/
theorem occStep_failure_semantics_witness :
    occStep envC2 DB.empty westendName = none
    ∧ occStep envC4 DB.empty westendName = some ⟨[zeroOccRow westendName], []⟩
    ∧ retrieveAndStoreBranchData envC2 DB.empty = .panicked DB.empty := by
  refine ⟨(occStep_failure_semantics envC2 DB.empty westendName).1 rfl, ?_,
    (occStep_failure_semantics envC2 DB.empty westendName).2.2 rfl⟩
  have h := (occStep_failure_semantics envC4 DB.empty westendName).2.1 rfl rfl
  simpa [DB.empty] using h

/-- C3 counterexample: the attendance ingestion cycle does not leave the
occupancy store unchanged — with every query succeeding it deletes the
previously stored `branch_data` row. -/
theorem attendance_cycle_deletes_occupancy_rows :
    (retrieveAndStoreExpectedAttendance envC3 dbC3).db.branch_data = []
    ∧ dbC3.branch_data ≠ [] := by
  decide

/-- C3 (amended): the attendance cycle modifies both stores: besides
replacing `expected_attendance` it runs `DELETE FROM branch_data`, so
whenever that DELETE succeeds every previously stored occupancy reading
is removed. -/
theorem attendance_cycle_clears_branch_data (env : AttEnv) (db : DB)
    (h : env.deleteBranchOk = true) :
    (retrieveAndStoreExpectedAttendance env db).db.branch_data = [] := by
  rw [att_outcome_db, attLoop_branch_data]
  simp [attInitial, h]

/-- C3 witness: the amended statement at a concrete store and
environment. -/
theorem attendance_cycle_clears_branch_data_witness :
    (retrieveAndStoreExpectedAttendance envC3 dbC3).db.branch_data = [] :=
  attendance_cycle_clears_branch_data envC3 dbC3 rfl

/-- C4 counterexample: with westend's body malformed (and everything else
healthy) the cycle neither records the decode failure (it answers 200)
nor leaves westend's stored data unchanged — a zero-valued row is
inserted for westend into the previously empty table. -/
theorem malformed_body_inserts_zero_row :
    (retrieveAndStoreBranchData envC4 DB.empty).status = some 200
    ∧ getBranchData (retrieveAndStoreBranchData envC4 DB.empty).db westendName ≠ [] := by
  decide

/-- C4 (amended): a malformed body does not crash the cycle — with no
network errors the handler completes and answers 200 — but the decode
error is silently discarded rather than recorded, and the affected
branch's store is not left unchanged: the occupancy step appends a
zero-valued row, and the attendance step appends the 16 zero-valued
slots. -/
theorem malformed_decode_semantics (envO : OccEnv) (envA : AttEnv) (db : DB)
    (hw : envO.fetch westendName ≠ .networkErr)
    (hm : envO.fetch miltonName ≠ .networkErr)
    (hn : envO.fetch newsteadName ≠ .networkErr) :
    (∃ db2, retrieveAndStoreBranchData envO db = .response db2 200 "Store Succeeded")
    ∧ (∀ name, envO.fetch name = .ok .malformed → envO.insertOk name = true →
        occStep envO db name
          = some { db with branch_data := db.branch_data ++ [zeroOccRow name] })
    ∧ (∀ name, envA.fetch name = .ok .malformed → (∀ i, envA.insertOk name i = true) →
        attStep envA db name
          = some { db with expected_attendance :=
              db.expected_attendance ++ attRowsOf name zeroSlots }
          ∧ (attRowsOf name zeroSlots).length = 16) := by
  refine ⟨?_, ?_, ?_⟩
  · have hl : ∀ nm ∈ branchNames, envO.fetch nm ≠ .networkErr := by
      intro nm hnm
      simp only [branchNames, List.mem_cons, List.not_mem_nil, or_false] at hnm
      rcases hnm with rfl | rfl | rfl
      · exact hw
      · exact hm
      · exact hn
    obtain ⟨db2, hdb2⟩ := occLoop_no_networkErr envO branchNames hl db
    exact ⟨db2, by rw [retrieveAndStoreBranchData, hdb2]⟩
  · intro name h hi
    simp [occStep, h, decodedBranchData, hi, zeroOccRow]
  · intro name h hi
    constructor
    · simp only [attStep, h, decodedAttendance]
      rw [insertSlots_allOk envA name hi]
    · simp [attRowsOf, zeroSlots]

/-- C4 witness: the amended statement at the concrete malformed-body
environments. -/
theorem malformed_decode_semantics_witness :
    (∃ db2, retrieveAndStoreBranchData envC4 DB.empty = .response db2 200 "Store Succeeded")
    ∧ occStep envC4 DB.empty westendName = some ⟨[zeroOccRow westendName], []⟩
    ∧ attStep envC4a DB.empty westendName = some ⟨[], attRowsOf westendName zeroSlots⟩ := by
  obtain ⟨h1, h2, h3⟩ :=
    malformed_decode_semantics envC4 envC4a DB.empty
      (fun h => FetchResult.noConfusion h)
      (fun h => FetchResult.noConfusion h)
      (fun h => FetchResult.noConfusion h)
  refine ⟨h1, ?_, ?_⟩
  · simpa [DB.empty] using h2 westendName rfl rfl
  · simpa [DB.empty] using (h3 westendName rfl fun _ => rfl).1

/-- C5: when upstream returns, for each of the three branches, a body
that decodes to exactly 16 slots and every query succeeds, the attendance
cycle followed by the attendance query surface returns, per branch,
exactly those 16 slots with the input hour/percentage values. -/
theorem attendance_roundtrip_16 (env : AttEnv) (db : DB)
    (hda : env.deleteAttendanceOk = true) (hdb : env.deleteBranchOk = true)
    (hins : ∀ name i, env.insertOk name i = true)
    (vw vm vn : Jsonv) (w m n : List expectedAttendance)
    (hfw : env.fetch westendName = .ok (.wellFormed vw))
    (hdw : decodeAttendanceList vw = some w)
    (hfm : env.fetch miltonName = .ok (.wellFormed vm))
    (hdm : decodeAttendanceList vm = some m)
    (hfn : env.fetch newsteadName = .ok (.wellFormed vn))
    (hdn : decodeAttendanceList vn = some n)
    (hlw : w.length = 16) (hlm : m.length = 16) (hln : n.length = 16) :
    ∃ db2,
      retrieveAndStoreExpectedAttendance env db = .response db2 200 "Store Succeeded"
      ∧ getExpectedAttendance db2 westendName = w
      ∧ getExpectedAttendance db2 miltonName = m
      ∧ getExpectedAttendance db2 newsteadName = n
      ∧ (getExpectedAttendance db2 westendName).length = 16
      ∧ (getExpectedAttendance db2 miltonName).length = 16
      ∧ (getExpectedAttendance db2 newsteadName).length = 16 := by
  refine ⟨_, attCycle_allOk env db hda hdb hins vw vm vn w m n hfw hdw hfm hdm hfn hdn,
    ?_, ?_, ?_, ?_, ?_, ?_⟩ <;>
    simp [getAtt_of_rows, milton_ne_west, newstead_ne_west, west_ne_milton,
      newstead_ne_milton, west_ne_newstead, milton_ne_newstead, hlw, hlm, hln]

/-- C5 witness: the round trip at three concrete 16-slot payloads. -/
theorem attendance_roundtrip_16_witness :
    ∃ db2,
      retrieveAndStoreExpectedAttendance envC5 DB.empty = .response db2 200 "Store Succeeded"
      ∧ getExpectedAttendance db2 westendName = sampleSlots 1
      ∧ getExpectedAttendance db2 miltonName = sampleSlots 2
      ∧ getExpectedAttendance db2 newsteadName = sampleSlots 3
      ∧ (getExpectedAttendance db2 westendName).length = 16
      ∧ (getExpectedAttendance db2 miltonName).length = 16
      ∧ (getExpectedAttendance db2 newsteadName).length = 16 :=
  attendance_roundtrip_16 envC5 DB.empty rfl rfl (fun _ _ => rfl)
    (sampleBody 1) (sampleBody 2) (sampleBody 3)
    (sampleSlots 1) (sampleSlots 2) (sampleSlots 3)
    rfl (by decide) rfl (by decide) rfl (by decide)
    (by decide) (by decide) (by decide)

/-- C7: running the attendance delete-all-then-repopulate cycle twice in
succession with two different fully decoding 16-slot payloads leaves, per
branch, exactly the second payload's slots — the first cycle's rows are
all deleted and nothing is duplicated.  (The conclusion also records what
the first cycle had stored, showing it was superseded.) -/
theorem attendance_replaceAll_twice (env1 env2 : AttEnv) (db : DB)
    (h1da : env1.deleteAttendanceOk = true) (h1db : env1.deleteBranchOk = true)
    (h1ins : ∀ name i, env1.insertOk name i = true)
    (v1w v1m v1n : Jsonv) (w1 m1 n1 : List expectedAttendance)
    (h1fw : env1.fetch westendName = .ok (.wellFormed v1w))
    (h1dw : decodeAttendanceList v1w = some w1)
    (h1fm : env1.fetch miltonName = .ok (.wellFormed v1m))
    (h1dm : decodeAttendanceList v1m = some m1)
    (h1fn : env1.fetch newsteadName = .ok (.wellFormed v1n))
    (h1dn : decodeAttendanceList v1n = some n1)
    (h2da : env2.deleteAttendanceOk = true) (h2db : env2.deleteBranchOk = true)
    (h2ins : ∀ name i, env2.insertOk name i = true)
    (v2w v2m v2n : Jsonv) (w2 m2 n2 : List expectedAttendance)
    (h2fw : env2.fetch westendName = .ok (.wellFormed v2w))
    (h2dw : decodeAttendanceList v2w = some w2)
    (h2fm : env2.fetch miltonName = .ok (.wellFormed v2m))
    (h2dm : decodeAttendanceList v2m = some m2)
    (h2fn : env2.fetch newsteadName = .ok (.wellFormed v2n))
    (h2dn : decodeAttendanceList v2n = some n2)
    (_hl1 : w1.length = 16 ∧ m1.length = 16 ∧ n1.length = 16)
    (_hl2 : w2.length = 16 ∧ m2.length = 16 ∧ n2.length = 16)
    (_hdiff : w1 ≠ w2 ∧ m1 ≠ m2 ∧ n1 ≠ n2) :
    getExpectedAttendance (retrieveAndStoreExpectedAttendance env1 db).db westendName = w1
    ∧ ∃ db2,
        retrieveAndStoreExpectedAttendance env2
            (retrieveAndStoreExpectedAttendance env1 db).db
          = .response db2 200 "Store Succeeded"
        ∧ getExpectedAttendance db2 westendName = w2
        ∧ getExpectedAttendance db2 miltonName = m2
        ∧ getExpectedAttendance db2 newsteadName = n2 := by
  constructor
  · rw [attCycle_allOk env1 db h1da h1db h1ins v1w v1m v1n w1 m1 n1
      h1fw h1dw h1fm h1dm h1fn h1dn]
    simp [HandlerOutcome.db, getAtt_of_rows, milton_ne_west, newstead_ne_west]
  · refine ⟨_, attCycle_allOk env2 _ h2da h2db h2ins v2w v2m v2n w2 m2 n2
      h2fw h2dw h2fm h2dm h2fn h2dn, ?_, ?_, ?_⟩ <;>
      simp [getAtt_of_rows, milton_ne_west, newstead_ne_west, west_ne_milton,
        newstead_ne_milton, west_ne_newstead, milton_ne_newstead]

/-- C7 witness: the replace-all-twice statement at two concrete distinct
payload sets. -/
theorem attendance_replaceAll_twice_witness :
    getExpectedAttendance (retrieveAndStoreExpectedAttendance envC5 DB.empty).db westendName
      = sampleSlots 1
    ∧ ∃ db2,
        retrieveAndStoreExpectedAttendance envC7
            (retrieveAndStoreExpectedAttendance envC5 DB.empty).db
          = .response db2 200 "Store Succeeded"
        ∧ getExpectedAttendance db2 westendName = sampleSlots 21
        ∧ getExpectedAttendance db2 miltonName = sampleSlots 22
        ∧ getExpectedAttendance db2 newsteadName = sampleSlots 23 :=
  attendance_replaceAll_twice envC5 envC7 DB.empty rfl rfl (fun _ _ => rfl)
    (sampleBody 1) (sampleBody 2) (sampleBody 3)
    (sampleSlots 1) (sampleSlots 2) (sampleSlots 3)
    rfl (by decide) rfl (by decide) rfl (by decide)
    rfl rfl (fun _ _ => rfl)
    (sampleBody 21) (sampleBody 22) (sampleBody 23)
    (sampleSlots 21) (sampleSlots 22) (sampleSlots 23)
    rfl (by decide) rfl (by decide) rfl (by decide)
    ⟨by decide, by decide, by decide⟩ ⟨by decide, by decide, by decide⟩
    ⟨by decide, by decide, by decide⟩

/-- C6 counterexample: in variant 2 the recorded reading is not
retrievable through its query surface.  With the mocked westend body
(`CurrentPercentage=42.5`, `Status="Quiet"`) and every INSERT succeeding,
the store handler completes (200) and rows are in the database, yet
`getAllBranches` — which serialises the never-updated in-memory map —
returns the empty list for westend. -/
theorem getAllBranches_misses_recorded_reading :
    (retrieveAndStoreBranchDataV2 envC9 (AppV2.init DB.empty)).status = some 200
    ∧ (retrieveAndStoreBranchDataV2 envC9 (AppV2.init DB.empty)).app.db.branch_data ≠ []
    ∧ getAllBranches (retrieveAndStoreBranchDataV2 envC9 (AppV2.init DB.empty)).app
        westendName = [] :=
  ⟨by decide, by decide, rfl⟩

/-- C6 (amended): for the database-backed surface of variant 1 the claim
holds: fetching a valid occupancy body with `CurrentPercentage=42.5`,
`Status="Quiet"` decodes to a reading with exactly those field values,
and recording it into an empty store makes it retrievable — with the
10-hour-offset timestamp — under the key "westend" and under no other
key.  (Variant 2's `getAllBranches` serves the never-written in-memory
map instead, per the counterexample.) -/
theorem occupancy_record_roundtrip (t : Int) (nm : String) :
    decodedBranchData (.wellFormed (occBodyOf t nm))
        = branchData.mk t nm "Quiet" (85 / 2)
    ∧ ∀ (env : OccEnv),
        env.fetch westendName = .ok (.wellFormed (occBodyOf t nm)) →
        env.insertOk westendName = true →
        ∃ db2, occStep env DB.empty westendName = some db2
          ∧ ∀ k, getBranchData db2 k
              = if k = westendName then [branchData.mk (t + 10 * 3600) nm "Quiet" (85 / 2)]
                else [] := by
  have hd : decodedBranchData (.wellFormed (occBodyOf t nm))
      = branchData.mk t nm "Quiet" (85 / 2) := rfl
  refine ⟨hd, ?_⟩
  intro env hf hi
  refine ⟨⟨[⟨branchSQLId westendName, t + 10 * 3600, nm, "Quiet", 85 / 2⟩], []⟩, ?_, ?_⟩
  · simp [occStep, hf, hi, hd, DB.empty]
  · intro k
    rw [getBranchData_eq]
    by_cases hk : k = westendName
    · simp [List.filter_cons, branchRowKey, sqlNameOf_west, branchRowData, hk]
    · simp [List.filter_cons, branchRowKey, sqlNameOf_west, branchRowData, hk, Ne.symm hk]

/-- C6 witness: the variant-1 round trip at the concrete mocked body. -/
theorem occupancy_record_roundtrip_witness :
    ∃ db2, occStep envC9 DB.empty westendName = some db2
      ∧ getBranchData db2 westendName = [⟨1000 + 10 * 3600, "West End", "Quiet", 85 / 2⟩]
      ∧ getBranchData db2 miltonName = []
      ∧ getBranchData db2 newsteadName = [] := by
  obtain ⟨db2, h1, h2⟩ := (occupancy_record_roundtrip 1000 "West End").2 envC9 rfl rfl
  refine ⟨db2, h1, ?_, ?_, ?_⟩ <;> rw [h2] <;>
    simp [milton_ne_west, newstead_ne_west]

/-- C8: the branch registry is exactly the three names westend, milton,
newstead in all three maps; the storage ids are the pairwise distinct
small integers 0, 1, 2; and the reverse map recovers each name from its
storage id.  (The Go accessors rebuild these literal maps on every call,
so in the embedding they are constants — immutability after startup is
structural.) -/
theorem branchRegistry_consistent :
    getBranchIds.map Prod.fst = [westendName, miltonName, newsteadName]
    ∧ getBranchSQLIds.map Prod.fst = [westendName, miltonName, newsteadName]
    ∧ getBranchSQLIds.map Prod.snd = [0, 1, 2]
    ∧ (getBranchSQLIds.map Prod.snd).Nodup
    ∧ ((getBranchSQLIds.map Prod.snd).all fun i => decide (i < 3)) = true
    ∧ (branchNames.all fun name =>
        getBranchSQLNames.lookup (branchSQLId name) == some name) = true := by
  decide

/-- C9: in variant 1 (the variant applying the timezone adjustment),
every successfully fetched and decoded occupancy reading is stored with
`last-updated` equal to the upstream `LastUpdated` plus exactly 10 hours
(36000 seconds at the second granularity the INSERT's format uses). -/
theorem occupancy_timestamp_offset (env : OccEnv) (db : DB) (name : String)
    (v : Jsonv) (d : branchData)
    (hf : env.fetch name = .ok (.wellFormed v))
    (hd : decodeBranchData v = some d)
    (hi : env.insertOk name = true) :
    occStep env db name
      = some { db with branch_data := db.branch_data
          ++ [⟨branchSQLId name, d.LastUpdated + 10 * 3600, d.Name, d.Status,
               d.CurrentPercentage⟩] } := by
  simp [occStep, hf, decodedBranchData, hd, hi]

/-- C9 witness: the offset at a concrete decoded reading. -/
theorem occupancy_timestamp_offset_witness :
    occStep envC9 DB.empty westendName
      = some ⟨[⟨branchSQLId westendName, 1000 + 10 * 3600, "West End", "Quiet", 85 / 2⟩],
              []⟩ := by
  have h := occupancy_timestamp_offset envC9 DB.empty westendName bodyC9
    ⟨1000, "West End", "Quiet", 85 / 2⟩ rfl rfl rfl
  simpa [DB.empty] using h

/-- C10: the `expectedAttendance` struct tag decodes `Percentage` from
the JSON key spelled "percantage" (and `Hour` from "hour"); a slot object
carrying the key "percantage" decodes with that value, one carrying the
correctly spelled "percentage" decodes with `Percentage = 0`, and more
generally any object with no "percantage" key (under Go's exact-then-
case-insensitive matching) decodes, when it decodes, to `Percentage = 0`. -/
theorem expectedAttendance_percantage_tag :
    (∀ (h : Int) (p : ℚ),
      decodeExpectedAttendance (.obj [("hour", .num h), ("percantage", .num p)])
        = some ⟨h, p⟩)
    ∧ (∀ (h : Int) (p : ℚ),
      decodeExpectedAttendance (.obj [("hour", .num h), ("percentage", .num p)])
        = some ⟨h, 0⟩)
    ∧ (∀ fields, lookupField fields "percantage" = none →
        ∀ s, decodeExpectedAttendance (.obj fields) = some s → s.Percentage = 0) := by
  refine ⟨fun h p => rfl, fun h p => rfl, ?_⟩
  intro fields hl s hs
  have hp : decodeField fields "percantage" asNum (0 : ℚ) = some 0 := by
    rw [decodeField, hl]
  rw [decodeExpectedAttendance] at hs
  rw [hp] at hs
  cases hh : decodeField fields "hour" asInt 0 with
  | none => rw [hh] at hs; exact Option.noConfusion hs
  | some h0 =>
    rw [hh] at hs
    cases hs
    rfl

/-- C10 witness: the tag behaviour at concrete slot objects. -/
theorem expectedAttendance_percantage_tag_witness :
    decodeExpectedAttendance (.obj [("hour", .num 5), ("percantage", .num 7)])
      = some ⟨5, 7⟩
    ∧ decodeExpectedAttendance (.obj [("hour", .num 5), ("percentage", .num 7)])
      = some ⟨5, 0⟩
    ∧ (⟨5, 0⟩ : expectedAttendance).Percentage = 0 :=
  ⟨expectedAttendance_percantage_tag.1 5 7,
   expectedAttendance_percantage_tag.2.1 5 7,
   expectedAttendance_percantage_tag.2.2 [("hour", .num 5)] rfl ⟨5, 0⟩ (by decide)⟩

end Climb
